import Mathlib

/-!
# Verification of the Grbl reporting layer (report.c / print.h)

A shallow embedding of the status/telemetry reporting functions of Grbl's
`report.c`, together with the numeric formatting helpers declared in
`print.h`.  Output is modelled as a list of emission events (`Tok`): each
`printPgmString` call contributes a `Tok.str`, each `printFloat` call a
`Tok.num`, each `print_unsigned_base10` call a `Tok.unum` and each
`print_base2` call a `Tok.base2`.  `render` turns an event list into the
byte (character) sequence written to the serial sink.

The bodies of the formatting primitives (`print.c`), the numeric values of
the `STATUS_*` / `ALARM_*` / `STATE_*` / `BITFLAG_*` constants (`report.h`,
`system.h`, `settings.h`, `config.h`) and the constant `INCH_PER_MM` are not
part of the provided sources; where needed they are modelled from the spec,
as marked in their doc comments.  Floating-point arithmetic is embedded as
exact rational arithmetic.
-/

/-! ## Numeric formatting (print.h primitives) -/

/-- ASCII digit character for a digit value `d < 10`. -/
def digitChar (d : ℕ) : Char := Char.ofNat (48 + d)

/-- Fuel-driven base-10 rendering: most significant digit first, no leading
zeros.  Structural recursion on the fuel so that it reduces in the kernel. -/
def natRepAux : ℕ → ℕ → List Char
  | 0, _ => []
  | f + 1, n => if n < 10 then [digitChar n] else natRepAux f (n / 10) ++ [digitChar (n % 10)]

/-- Modelled from the spec: `printUnsignedBase10`-style decimal rendering
(repeated remainder extraction, emitted most-significant-first, `0` for zero);
the implementation file `print.c` is not in the sources. -/
def natRep (n : ℕ) : List Char := natRepAux (n + 1) n

/-- Value of a decimal digit string (used to state rendering correctness). -/
def charsVal (cs : List Char) : ℕ := cs.foldl (fun a c => 10 * a + (c.toNat - 48)) 0

/-- `print_unsigned_base10` from `print.h`.  The declared C parameter type is
`uint8_t`, so an argument is reduced modulo 256 at the call boundary; the body
(decimal digits, no leading zeros) is modelled from the spec since `print.c`
is not in the sources. -/
def print_unsigned_base10 (n : ℕ) : List Char := natRep (n % 256)

/-- Floor of a nonnegative rational as a natural number (kernel-reducible). -/
def ratFloorNat (q : ℚ) : ℕ := q.num.toNat / q.den

/-- Modelled from the spec: `printFloat` (`print.c` not in the sources) —
fixed number `p` of fraction digits, rounding half-away-from-zero, fixed-width
fraction with no stripping of trailing zeros, `-` sign emitted first for
negative inputs (including values rounding to negative zero). -/
def printFloatChars (p : ℕ) (x : ℚ) : List Char :=
  let scaled : ℕ := ratFloorNat ((if x < 0 then -x else x) * (10 : ℚ) ^ p + 1 / 2)
  let frac : List Char := natRep (scaled % 10 ^ p)
  (if x < 0 then ['-'] else []) ++ natRep (scaled / 10 ^ p) ++
    ['.'] ++ List.replicate (p - frac.length) '0' ++ frac

/-- Modelled from the spec: `print_base2` (`print.c` not in the sources) —
exactly `w` binary digits, most significant bit first. -/
def base2Chars (n : ℕ) (w : ℕ) : List Char :=
  (List.range w).map (fun i => if (n >>> (w - 1 - i)) % 2 = 1 then '1' else '0')

/-! ## Emission events and rendering -/

/-- One emission event of the reporting layer. -/
inductive Tok where
  | str : String → Tok
  | num : ℚ → Tok
  | unum : ℕ → Tok
  | base2 : ℕ → ℕ → Tok
deriving DecidableEq

/-- Bytes produced by one emission event (`p` = configured decimal places). -/
def renderTok (p : ℕ) : Tok → List Char
  | .str s => s.toList
  | .num q => printFloatChars p q
  | .unum n => print_unsigned_base10 n
  | .base2 n w => base2Chars n w

/-- Bytes produced by an emission sequence. -/
def render (p : ℕ) : List Tok → List Char
  | [] => []
  | t :: ts => renderTok p t ++ render p ts

/-- Concatenation of per-element emissions (the shape of the C `for` loops). -/
def catMap {α : Type} (f : α → List Tok) : List α → List Tok
  | [] => []
  | a :: as => f a ++ catMap f as

/-! ## Status codes (report.h) -/

/-- Modelled from the spec: numeric values of the `STATUS_*` constants
(`report.h` is not in the sources); distinct codes, 0 = OK. -/
def STATUS_OK : ℕ := 0
def STATUS_EXPECTED_COMMAND_LETTER : ℕ := 1
def STATUS_BAD_NUMBER_FORMAT : ℕ := 2
def STATUS_INVALID_STATEMENT : ℕ := 3
def STATUS_NEGATIVE_VALUE : ℕ := 4
def STATUS_SETTING_DISABLED : ℕ := 5
def STATUS_SETTING_STEP_PULSE_MIN : ℕ := 6
def STATUS_SETTING_READ_FAIL : ℕ := 7
def STATUS_IDLE_ERROR : ℕ := 8
def STATUS_ALARM_LOCK : ℕ := 9
def STATUS_SOFT_LIMIT_ERROR : ℕ := 10
def STATUS_OVERFLOW : ℕ := 11
def STATUS_GCODE_MODAL_GROUP_VIOLATION : ℕ := 20
def STATUS_GCODE_UNSUPPORTED_COMMAND : ℕ := 21
def STATUS_GCODE_UNDEFINED_FEED_RATE : ℕ := 22

/-- The fixed phrase of each known nonzero status code: the `case` arms of the
`switch` in `report_status_message` (report.c lines 53-83). -/
def statusPhrase (code : ℕ) : Option String :=
  if code = STATUS_EXPECTED_COMMAND_LETTER then some "Expected command letter"
  else if code = STATUS_BAD_NUMBER_FORMAT then some "Bad number format"
  else if code = STATUS_INVALID_STATEMENT then some "Invalid statement"
  else if code = STATUS_NEGATIVE_VALUE then some "Value < 0"
  else if code = STATUS_SETTING_DISABLED then some "Setting disabled"
  else if code = STATUS_SETTING_STEP_PULSE_MIN then some "Value < 3 usec"
  else if code = STATUS_SETTING_READ_FAIL then some "EEPROM read fail. Using defaults"
  else if code = STATUS_IDLE_ERROR then some "Not idle"
  else if code = STATUS_ALARM_LOCK then some "Alarm lock"
  else if code = STATUS_SOFT_LIMIT_ERROR then some "Homing not enabled"
  else if code = STATUS_OVERFLOW then some "Line overflow"
  else if code = STATUS_GCODE_MODAL_GROUP_VIOLATION then some "Modal group violation"
  else if code = STATUS_GCODE_UNSUPPORTED_COMMAND then some "Unsupported command"
  else if code = STATUS_GCODE_UNDEFINED_FEED_RATE then some "Undefined feed rate"
  else none

/-- `report_status_message` (report.c lines 47-91): `ok` acknowledgement for
code 0, otherwise `error: ` + fixed phrase (known codes) or
`Invalid gcode ID:` + decimal code (default arm), always `\r\n` terminated. -/
def report_status_message (code : ℕ) : List Tok :=
  if code = STATUS_OK then [.str "ok\r\n"]
  else
    [.str "error: "] ++
      (match statusPhrase code with
        | some p => [.str p]
        | none => [.str "Invalid gcode ID:", .unum code]) ++
      [.str "\r\n"]

/-! ## Properties of the numeric formatters -/

lemma digitChar_toNat {d : ℕ} (hd : d < 10) : (digitChar d).toNat = 48 + d := by
  interval_cases d <;> decide

lemma digitChar_bounds {d : ℕ} (hd : d < 10) :
    48 ≤ (digitChar d).toNat ∧ (digitChar d).toNat ≤ 57 := by
  interval_cases d <;> decide

lemma digitChar_eq_zero {d : ℕ} (hd : d < 10) : digitChar d = '0' → d = 0 := by
  interval_cases d <;> decide

lemma natRepAux_spec :
    ∀ f n, n < 10 ^ f →
      charsVal (natRepAux f n) = n ∧
      (1 ≤ f → natRepAux f n ≠ []) ∧
      (∀ c ∈ natRepAux f n, 48 ≤ c.toNat ∧ c.toNat ≤ 57) ∧
      ((natRepAux f n).head? = some '0' → n = 0) := by
  intro f
  induction f with
  | zero =>
    intro n hn
    interval_cases n
    simp [natRepAux, charsVal]
  | succ f ih =>
    intro n hn
    by_cases h10 : n < 10
    · refine ⟨?_, fun _ => by simp [natRepAux, h10], ?_, ?_⟩
      · simp [natRepAux, h10, charsVal, digitChar_toNat h10]
      · simpa [natRepAux, h10] using digitChar_bounds h10
      · simp only [natRepAux, if_pos h10, List.head?_cons, Option.some.injEq]
        exact fun h => digitChar_eq_zero h10 h
    · have hdiv : n / 10 < 10 ^ f := by
        rw [Nat.div_lt_iff_lt_mul (by norm_num)]
        calc n < 10 ^ (f + 1) := hn
        _ = 10 ^ f * 10 := by ring
      obtain ⟨ihv, ihne, ihd, ihh⟩ := ih (n / 10) hdiv
      have hf1 : 1 ≤ f := by
        by_contra hf
        have : f = 0 := by omega
        subst this
        simp at hdiv
        omega
      have hne := ihne hf1
      have hmod : n % 10 < 10 := Nat.mod_lt _ (by norm_num)
      refine ⟨?_, fun _ => ?_, ?_, ?_⟩
      · simp only [natRepAux, if_neg h10, charsVal, List.foldl_append]
        have : charsVal (natRepAux f (n / 10)) = n / 10 := ihv
        simp only [charsVal] at this
        simp only [List.foldl_cons, List.foldl_nil, this, digitChar_toNat hmod]
        omega
      · simp only [natRepAux, if_neg h10]
        intro h
        exact hne (List.append_eq_nil.mp h).1
      · simp only [natRepAux, if_neg h10]
        intro c hc
        rcases List.mem_append.mp hc with h | h
        · exact ihd c h
        · simp at h
          subst h
          exact digitChar_bounds hmod
      · simp only [natRepAux, if_neg h10]
        obtain ⟨a, as, ha⟩ := List.exists_cons_of_ne_nil hne
        rw [ha]
        simp only [List.cons_append, List.head?_cons, Option.some.injEq]
        intro h
        have := ihh (by rw [ha]; simp [h])
        omega

lemma natRep_lt_pow (n : ℕ) : n < 10 ^ (n + 1) :=
  lt_of_lt_of_le (Nat.lt_pow_self (by norm_num) n)
    (Nat.pow_le_pow_right (by norm_num) (Nat.le_succ n))

lemma charsVal_natRep (n : ℕ) : charsVal (natRep n) = n :=
  (natRepAux_spec (n + 1) n (natRep_lt_pow n)).1

lemma natRep_ne_nil (n : ℕ) : natRep n ≠ [] :=
  (natRepAux_spec (n + 1) n (natRep_lt_pow n)).2.1 (Nat.succ_le_succ (Nat.zero_le n))

lemma natRep_digits {n : ℕ} {c : Char} (hc : c ∈ natRep n) :
    48 ≤ c.toNat ∧ c.toNat ≤ 57 :=
  (natRepAux_spec (n + 1) n (natRep_lt_pow n)).2.2.1 c hc

lemma natRep_head {n : ℕ} (h : (natRep n).head? = some '0') : n = 0 :=
  (natRepAux_spec (n + 1) n (natRep_lt_pow n)).2.2.2 h

lemma lt_not_mem_natRep (n : ℕ) : '<' ∉ natRep n := by
  intro h
  have := (natRep_digits h).2
  simp at this

/-- Floor characterization used to evaluate `printFloatChars` on concrete
rationals through `norm_num`. -/
lemma ratFloorNat_spec {q : ℚ} {n : ℕ} (h1 : (n : ℚ) ≤ q) (h2 : q < n + 1) :
    ratFloorNat q = n := by
  have h0 : 0 ≤ q := le_trans (by positivity) h1
  have hfl : ⌊q⌋ = (n : ℤ) := by
    rw [Int.floor_eq_iff]
    constructor
    · exact_mod_cast h1
    · exact_mod_cast h2
  have hnum : 0 ≤ q.num := Rat.num_nonneg.mpr h0
  have hd : ⌊q⌋ = q.num / (q.den : ℤ) := Rat.floor_def
  have key : (↑(q.num.toNat / q.den) : ℤ) = (n : ℤ) := by
    rw [Int.natCast_div, Int.toNat_of_nonneg hnum, ← hd, hfl]
  unfold ratFloorNat
  exact_mod_cast key

/-- Evaluation rule for `printFloatChars` on nonnegative inputs: `m` is the
rounded scaled value. -/
lemma printFloatChars_eval {p : ℕ} {x : ℚ} {m : ℕ} (hx : 0 ≤ x)
    (h1 : (m : ℚ) ≤ x * 10 ^ p + 1 / 2) (h2 : x * 10 ^ p + 1 / 2 < m + 1) :
    printFloatChars p x =
      natRep (m / 10 ^ p) ++ ['.'] ++
        List.replicate (p - (natRep (m % 10 ^ p)).length) '0' ++ natRep (m % 10 ^ p) := by
  have hneg : ¬ x < 0 := not_lt.mpr hx
  have habs : (if x < 0 then -x else x) = x := if_neg hneg
  have hm2 : ratFloorNat (x * (10 : ℚ) ^ p + 1 / 2) = m := ratFloorNat_spec h1 h2
  simp only [printFloatChars, habs, hm2, if_neg hneg]
  simp

/-- Evaluation rule for `printFloatChars` on whole nonnegative numbers. -/
lemma printFloatChars_natCast (p n : ℕ) (hp : 1 ≤ p) :
    printFloatChars p (n : ℚ) = natRep n ++ ['.'] ++ List.replicate p '0' := by
  have h1 : ((n * 10 ^ p : ℕ) : ℚ) ≤ (n : ℚ) * 10 ^ p + 1 / 2 := by
    push_cast
    norm_num
  have h2 : (n : ℚ) * 10 ^ p + 1 / 2 < (n * 10 ^ p : ℕ) + 1 := by
    push_cast
    norm_num
  have := printFloatChars_eval (p := p) (x := (n : ℚ)) (m := n * 10 ^ p)
    (by positivity) h1 h2
  rw [this]
  have hdvd : n * 10 ^ p % 10 ^ p = 0 := Nat.mul_mod_left n (10 ^ p)
  have hdiv : n * 10 ^ p / 10 ^ p = n := Nat.mul_div_cancel _ (by positivity)
  rw [hdvd, hdiv]
  have h0 : natRep 0 = ['0'] := by decide
  rw [h0]
  simp only [List.length_singleton]
  obtain ⟨p', rfl⟩ : ∃ p', p = p' + 1 := ⟨p - 1, by omega⟩
  rw [List.replicate_succ' p' '0']
  simp

lemma lt_not_mem_printFloatChars (p : ℕ) (x : ℚ) : '<' ∉ printFloatChars p x := by
  unfold printFloatChars
  intro h
  simp only [List.mem_append, List.mem_singleton, List.mem_replicate] at h
  rcases h with ((((h | h) | h) | h) | h)
  · split at h <;> simp_all
  · exact lt_not_mem_natRep _ h
  · exact absurd h (by decide)
  · exact absurd h.2 (by decide)
  · exact lt_not_mem_natRep _ h

/-! ## Data model (settings.h / gcode.h / system.h state consumed by report.c) -/

/-- Modelled from the spec: compile-time axis count (`config.h` not in the
sources); the spec's end-to-end example fixes three axes (X, Y, Z). -/
abbrev N_AXIS : ℕ := 3

/-- Modelled from the spec: bit positions of the feature-flag bitmask
(`settings.h` not in the sources); only distinctness matters here. -/
def BITFLAG_REPORT_INCHES : ℕ := 1
def BITFLAG_AUTO_START : ℕ := 2
def BITFLAG_INVERT_ST_ENABLE : ℕ := 4
def BITFLAG_INVERT_LIMIT_PINS : ℕ := 8
def BITFLAG_SOFT_LIMIT_ENABLE : ℕ := 16
def BITFLAG_HARD_LIMIT_ENABLE : ℕ := 32
def BITFLAG_HOMING_ENABLE : ℕ := 64

/-- `bit_istrue(x,mask)`: the masked bits are non-zero. -/
def bit_istrue (x mask : ℕ) : Bool := x &&& mask != 0

/-- The C integer value of `bit_istrue` as passed to `print_unsigned_base10`. -/
def flag01 (x mask : ℕ) : ℕ := if bit_istrue x mask then 1 else 0

/-- Modelled from the spec: inch conversion factor (`gcode.h`/`config.h` not in
the sources); the claims do not depend on its value. -/
def INCH_PER_MM : ℚ := 0.0393701

/-- The `settings` global read by report.c. -/
structure Settings where
  steps_per_mm : Fin N_AXIS → ℚ
  max_rate : Fin N_AXIS → ℚ
  acceleration : Fin N_AXIS → ℚ
  max_travel : Fin N_AXIS → ℚ
  pulse_microseconds : ℕ
  step_invert_mask : ℕ
  dir_invert_mask : ℕ
  stepper_idle_lock_time : ℕ
  junction_deviation : ℚ
  arc_tolerance : ℚ
  decimal_places : ℕ
  flags : ℕ
  homing_dir_mask : ℕ
  homing_feed_rate : ℚ
  homing_seek_rate : ℚ
  homing_debounce_delay : ℕ
  homing_pulloff : ℚ

/-- The parts of the `gc_state` global read by the functions under study. -/
structure GcState where
  coord_system : Fin N_AXIS → ℚ
  coord_offset : Fin N_AXIS → ℚ

/-- The parts of the `sys` global read by the functions under study. -/
structure SysState where
  state : ℕ
  position : Fin N_AXIS → ℤ
  probe_position : Fin N_AXIS → ℤ

/-- Modelled from the spec: numeric values of the `STATE_*` machine-state
constants (`system.h` not in the sources); distinct values, only
distinctness matters for the claims. -/
def STATE_IDLE : ℕ := 0
def STATE_ALARM : ℕ := 1
def STATE_CHECK_MODE : ℕ := 2
def STATE_HOMING : ℕ := 4
def STATE_QUEUED : ℕ := 8
def STATE_CYCLE : ℕ := 16
def STATE_HOLD : ℕ := 32

/-- Modelled from the spec: numeric values of the `ALARM_*` codes
(`report.h` not in the sources); distinct negative codes for the closed
alarm set (hard/soft limit, abort-during-cycle, probe-fail). -/
def ALARM_LIMIT_ERROR : ℤ := -1
def ALARM_ABORT_CYCLE : ℤ := -2
def ALARM_PROBE_FAIL : ℤ := -3

/-! ## report.c frame builders -/

/-- `report_alarm_message` (report.c lines 94-107): `ALARM: ` + phrase from
the closed alarm-code set, `\r\n` terminated; codes outside the set
contribute no phrase.  The trailing `delay_ms(500)` transport flush is a
timing effect with no bearing on the emitted bytes and is not modelled. -/
def report_alarm_message (alarm_code : ℤ) : List Tok :=
  [.str "ALARM: "] ++
    (if alarm_code = ALARM_LIMIT_ERROR then [.str "Hard/soft limit"]
     else if alarm_code = ALARM_ABORT_CYCLE then [.str "Abort during cycle"]
     else if alarm_code = ALARM_PROBE_FAIL then [.str "Probe fail"]
     else []) ++
    [.str "\r\n"]

/-- `report_grbl_settings` (report.c lines 159-195), one emission event per
`printPgmString` / `printFloat` / `print_unsigned_base10` / `print_base2`
call, in call order. -/
def report_grbl_settings (s : Settings) : List Tok :=
  [.str "$0=", .num (s.steps_per_mm 0),
   .str " (x, step/mm)\r\n$1=", .num (s.steps_per_mm 1),
   .str " (y, step/mm)\r\n$2=", .num (s.steps_per_mm 2),
   .str " (z, step/mm)\r\n$3=", .num (s.max_rate 0),
   .str " (x max rate, mm/min)\r\n$4=", .num (s.max_rate 1),
   .str " (y max rate, mm/min)\r\n$5=", .num (s.max_rate 2),
   .str " (z max rate, mm/min)\r\n$6=", .num (s.acceleration 0 / (60 * 60)),
   .str " (x accel, mm/sec^2)\r\n$7=", .num (s.acceleration 1 / (60 * 60)),
   .str " (y accel, mm/sec^2)\r\n$8=", .num (s.acceleration 2 / (60 * 60)),
   .str " (z accel, mm/sec^2)\r\n$9=", .num (-s.max_travel 0),
   .str " (x max travel, mm)\r\n$10=", .num (-s.max_travel 1),
   .str " (y max travel, mm)\r\n$11=", .num (-s.max_travel 2),
   .str " (z max travel, mm)\r\n$12=", .unum s.pulse_microseconds,
   .str " (step pulse, usec)\r\n$13=", .unum s.step_invert_mask,
   .str " (step port invert mask:", .base2 s.step_invert_mask 8,
   .str ")\r\n$14=", .unum s.dir_invert_mask,
   .str " (dir port invert mask:", .base2 s.dir_invert_mask 8,
   .str ")\r\n$15=", .unum s.stepper_idle_lock_time,
   .str " (step idle delay, msec)\r\n$16=", .num s.junction_deviation,
   .str " (junction deviation, mm)\r\n$17=", .num s.arc_tolerance,
   .str " (arc tolerance, mm)\r\n$18=", .unum s.decimal_places,
   .str " (n-decimals, int)\r\n$19=", .unum (flag01 s.flags BITFLAG_REPORT_INCHES),
   .str " (report inches, bool)\r\n$20=", .unum (flag01 s.flags BITFLAG_AUTO_START),
   .str " (auto start, bool)\r\n$21=", .unum (flag01 s.flags BITFLAG_INVERT_ST_ENABLE),
   .str " (invert step enable, bool)\r\n$22=", .unum (flag01 s.flags BITFLAG_INVERT_LIMIT_PINS),
   .str " (invert limit pins, bool)\r\n$23=", .unum (flag01 s.flags BITFLAG_SOFT_LIMIT_ENABLE),
   .str " (soft limits, bool)\r\n$24=", .unum (flag01 s.flags BITFLAG_HARD_LIMIT_ENABLE),
   .str " (hard limits, bool)\r\n$25=", .unum (flag01 s.flags BITFLAG_HOMING_ENABLE),
   .str " (homing cycle, bool)\r\n$26=", .unum s.homing_dir_mask,
   .str " (homing dir invert mask:", .base2 s.homing_dir_mask 8,
   .str ")\r\n$27=", .num s.homing_feed_rate,
   .str " (homing feed, mm/min)\r\n$28=", .num s.homing_seek_rate,
   .str " (homing seek, mm/min)\r\n$29=", .unum s.homing_debounce_delay,
   .str " (homing debounce, msec)\r\n$30=", .num s.homing_pulloff,
   .str " (homing pull-off, mm)\r\n"]

/-- Per-axis probe position in display units (report.c lines 209-210). -/
def probeVal (s : Settings) (sys : SysState) (i : Fin N_AXIS) : ℚ :=
  let p : ℚ := (sys.probe_position i : ℚ) / s.steps_per_mm i
  if bit_istrue s.flags BITFLAG_REPORT_INCHES then p * INCH_PER_MM else p

/-- `report_probe_parameters` (report.c lines 201-215). -/
def report_probe_parameters (s : Settings) (sys : SysState) : List Tok :=
  [.str "[Probe:"] ++
    catMap (fun i => [.num (probeVal s sys i)] ++
        if i.val < N_AXIS - 1 then [.str ","] else [])
      (List.finRange N_AXIS) ++
    [.str "]\r\n"]

/-- Modelled from the spec: highest coordinate-system slot index
(`settings.h` not in the sources) — slots 0-5 are G54-G59 and the two
special slots 6 and 7 display as G28/G30. -/
def SETTING_INDEX_NCOORD : ℕ := 7

/-- Per-axis stored coordinate offset in display units
(report.c lines 236-237). -/
def ngcCoordVal (s : Settings) (v : Fin N_AXIS → ℚ) (i : Fin N_AXIS) : ℚ :=
  if bit_istrue s.flags BITFLAG_REPORT_INCHES then v i * INCH_PER_MM else v i

/-- One successful coordinate-slot frame of `report_ngc_parameters`
(report.c lines 228-240): `[G` + slot label + `:` + per-axis CSV + `]\r\n`. -/
def ngcSlotToks (s : Settings) (k : ℕ) (v : Fin N_AXIS → ℚ) : List Tok :=
  [.str "[G"] ++
    (if k = 6 then [.str "28"] else if k = 7 then [.str "30"] else [.unum (k + 54)]) ++
    [.str ":"] ++
    catMap (fun i => [.num (ngcCoordVal s v i)] ++
        if i.val < N_AXIS - 1 then [.str ","] else [.str "]\r\n"])
      (List.finRange N_AXIS)

/-- The `[G92:...]` transient-offset frame (report.c lines 242-248). -/
def g92Toks (s : Settings) (gc : GcState) : List Tok :=
  [.str "[G92:"] ++
    catMap (fun i => [.num (ngcCoordVal s gc.coord_offset i)] ++
        if i.val < N_AXIS - 1 then [.str ","] else [.str "]\r\n"])
      (List.finRange N_AXIS)

/-- The slot loop of `report_ngc_parameters` (report.c lines 223-241) over the
remaining slot indices: a failed `settings_read_coord_data` emits the
settings-read-failure status frame and returns (abandoning the rest of the
function); after the last slot the `[G92:...]` frame and the probe frame
follow. -/
def ngcLoop (s : Settings) (gc : GcState) (sys : SysState)
    (readCoord : ℕ → Option (Fin N_AXIS → ℚ)) : List ℕ → List Tok
  | [] => g92Toks s gc ++ report_probe_parameters s sys
  | k :: ks =>
    match readCoord k with
    | none => report_status_message STATUS_SETTING_READ_FAIL
    | some cd => ngcSlotToks s k cd ++ ngcLoop s gc sys readCoord ks

/-- `report_ngc_parameters` (report.c lines 219-250).  `readCoord` stands for
the collaborator `settings_read_coord_data`, returning the slot's coordinate
data or a failure. -/
def report_ngc_parameters (s : Settings) (gc : GcState) (sys : SysState)
    (readCoord : ℕ → Option (Fin N_AXIS → ℚ)) : List Tok :=
  ngcLoop s gc sys readCoord (List.range (SETTING_INDEX_NCOORD + 1))

/-- The machine-state `switch` of `report_realtime_status`
(report.c lines 346-354): a matched state emits `<` + its token, an
unmatched state emits nothing. -/
def stateToks (st : ℕ) : List Tok :=
  if st = STATE_IDLE then [.str "<Idle"]
  else if st = STATE_QUEUED then [.str "<Queue"]
  else if st = STATE_CYCLE then [.str "<Run"]
  else if st = STATE_HOLD then [.str "<Hold"]
  else if st = STATE_HOMING then [.str "<Home"]
  else if st = STATE_ALARM then [.str "<Alarm"]
  else if st = STATE_CHECK_MODE then [.str "<Check"]
  else []

/-- Per-axis machine position in display units (report.c lines 359-360):
steps divided by steps-per-mm, times the inch factor when the report-inches
flag is set. -/
def mposVal (s : Settings) (sys : SysState) (i : Fin N_AXIS) : ℚ :=
  let p : ℚ := (sys.position i : ℚ) / s.steps_per_mm i
  if bit_istrue s.flags BITFLAG_REPORT_INCHES then p * INCH_PER_MM else p

/-- Per-axis work position (report.c lines 368-372): the in-place
`print_position[i] -= ...` update of the machine position. -/
def wposVal (s : Settings) (gc : GcState) (sys : SysState) (i : Fin N_AXIS) : ℚ :=
  if bit_istrue s.flags BITFLAG_REPORT_INCHES then
    mposVal s sys i - (gc.coord_system i + gc.coord_offset i) * INCH_PER_MM
  else
    mposVal s sys i - (gc.coord_system i + gc.coord_offset i)

/-- The part of `report_realtime_status` after the machine-state `switch`
(report.c lines 356-388): `,MPos:` CSV with a comma after every axis,
`WPos:` CSV with separating commas only, `>\r\n`. -/
def realtimeBodyToks (s : Settings) (gc : GcState) (sys : SysState) : List Tok :=
  [.str ",MPos:"] ++
    catMap (fun i => [.num (mposVal s sys i), .str ","]) (List.finRange N_AXIS) ++
    [.str "WPos:"] ++
    catMap (fun i => [.num (wposVal s gc sys i)] ++
        if i.val < N_AXIS - 1 then [.str ","] else [])
      (List.finRange N_AXIS) ++
    [.str ">\r\n"]

/-- `report_realtime_status` (report.c lines 334-389) with the
`USE_LINE_NUMBERS` compile-time feature disabled (as in the default build
this slice belongs to). -/
def report_realtime_status (s : Settings) (gc : GcState) (sys : SysState) : List Tok :=
  stateToks sys.state ++ realtimeBodyToks s gc sys

/-! ## Rendering lemmas -/

lemma render_append (p : ℕ) (a b : List Tok) :
    render p (a ++ b) = render p a ++ render p b := by
  induction a with
  | nil => simp [render]
  | cons t ts ih => simp [render, ih]

lemma mem_catMap {α : Type} {f : α → List Tok} {l : List α} {t : Tok} :
    t ∈ catMap f l ↔ ∃ a ∈ l, t ∈ f a := by
  induction l with
  | nil => simp [catMap]
  | cons a as ih => simp [catMap, List.mem_append, ih]

lemma count_catMap_zero {α : Type} {f : α → List Tok} {l : List α} {t : Tok}
    (h : ∀ a ∈ l, (f a).count t = 0) : (catMap f l).count t = 0 := by
  induction l with
  | nil => simp [catMap]
  | cons a as ih =>
    simp only [catMap, List.count_append]
    rw [h a (List.mem_cons_self a as), ih (fun b hb => h b (List.mem_cons_of_mem a hb))]

lemma count_catMap_one {α : Type} {f : α → List Tok} {l : List α} {t : Tok}
    (h : ∀ a ∈ l, (f a).count t = 1) : (catMap f l).count t = l.length := by
  induction l with
  | nil => simp [catMap]
  | cons a as ih =>
    simp only [catMap, List.count_append, List.length_cons]
    rw [h a (List.mem_cons_self a as), ih (fun b hb => h b (List.mem_cons_of_mem a hb))]
    omega

/-- The real-time status body as a concrete emission list. -/
lemma realtimeBodyToks_eq (s : Settings) (gc : GcState) (sys : SysState) :
    realtimeBodyToks s gc sys =
      [.str ",MPos:", .num (mposVal s sys 0), .str ",", .num (mposVal s sys 1), .str ",",
       .num (mposVal s sys 2), .str ",", .str "WPos:", .num (wposVal s gc sys 0), .str ",",
       .num (wposVal s gc sys 1), .str ",", .num (wposVal s gc sys 2), .str ">\r\n"] := rfl

/-- Byte-level shape of the real-time status line. -/
lemma realtime_render (s : Settings) (gc : GcState) (sys : SysState) (p : ℕ) :
    render p (report_realtime_status s gc sys) =
      render p (stateToks sys.state) ++ ",MPos:".toList ++
        printFloatChars p (mposVal s sys 0) ++ ",".toList ++
        printFloatChars p (mposVal s sys 1) ++ ",".toList ++
        printFloatChars p (mposVal s sys 2) ++ ",".toList ++
        "WPos:".toList ++
        printFloatChars p (wposVal s gc sys 0) ++ ",".toList ++
        printFloatChars p (wposVal s gc sys 1) ++ ",".toList ++
        printFloatChars p (wposVal s gc sys 2) ++ ">\r\n".toList := by
  rw [report_realtime_status, render_append, realtimeBodyToks_eq]
  simp [render, renderTok, List.append_assoc]

lemma lt_not_mem_render_of (p : ℕ) (ts : List Tok)
    (h : ∀ t ∈ ts, '<' ∉ renderTok p t) : '<' ∉ render p ts := by
  induction ts with
  | nil => simp [render]
  | cons t ts ih =>
    simp only [render, List.mem_append]
    rintro (hc | hc)
    · exact h t (List.mem_cons_self t ts) hc
    · exact ih (fun u hu => h u (List.mem_cons_of_mem _ hu)) hc

lemma renderTok_str (p : ℕ) (s0 : String) : renderTok p (.str s0) = s0.toList := rfl

lemma lt_not_mem_body (s : Settings) (gc : GcState) (sys : SysState) (p : ℕ) :
    '<' ∉ render p (realtimeBodyToks s gc sys) := by
  rw [realtimeBodyToks_eq]
  apply lt_not_mem_render_of
  intro t ht
  simp only [List.mem_cons, List.not_mem_nil, or_false] at ht
  rcases ht with rfl | rfl | rfl | rfl | rfl | rfl | rfl | rfl | rfl | rfl | rfl | rfl | rfl | rfl <;>
    first
      | exact lt_not_mem_printFloatChars _ _
      | (rw [renderTok_str]; decide)

/-! ## NGC parameter dump lemmas -/

/-- One coordinate-slot frame as a concrete emission list. -/
lemma ngcSlotToks_eq (s : Settings) (k : ℕ) (v : Fin N_AXIS → ℚ) :
    ngcSlotToks s k v =
      [.str "[G"] ++
        (if k = 6 then [.str "28"] else if k = 7 then [.str "30"] else [.unum (k + 54)]) ++
        [.str ":", .num (ngcCoordVal s v 0), .str ",", .num (ngcCoordVal s v 1), .str ",",
         .num (ngcCoordVal s v 2), .str "]\r\n"] := by
  rw [ngcSlotToks]
  split_ifs <;> rfl

lemma g92Toks_eq (s : Settings) (gc : GcState) :
    g92Toks s gc =
      [.str "[G92:", .num (ngcCoordVal s gc.coord_offset 0), .str ",",
       .num (ngcCoordVal s gc.coord_offset 1), .str ",",
       .num (ngcCoordVal s gc.coord_offset 2), .str "]\r\n"] := rfl

lemma probeToks_eq (s : Settings) (sys : SysState) :
    report_probe_parameters s sys =
      [.str "[Probe:", .num (probeVal s sys 0), .str ",", .num (probeVal s sys 1), .str ",",
       .num (probeVal s sys 2), .str "]\r\n"] := rfl

/-- A fixed-string emission of a coordinate-slot frame is one of its six
literal chunks. -/
lemma ngcSlotToks_mem_str {s : Settings} {k : ℕ} {v : Fin N_AXIS → ℚ} {w : String}
    (hmem : (Tok.str w) ∈ ngcSlotToks s k v) :
    w = "[G" ∨ w = "28" ∨ w = "30" ∨ w = ":" ∨ w = "," ∨ w = "]\r\n" := by
  rw [ngcSlotToks_eq] at hmem
  split_ifs at hmem <;> simp at hmem <;> tauto

lemma ngcSlotToks_count_err (s : Settings) (k : ℕ) (v : Fin N_AXIS → ℚ) :
    (ngcSlotToks s k v).count (.str "EEPROM read fail. Using defaults") = 0 := by
  rw [List.count_eq_zero]
  intro hmem
  rcases ngcSlotToks_mem_str hmem with h | h | h | h | h | h <;> simp at h

lemma ngcSlotToks_count_open (s : Settings) (k : ℕ) (v : Fin N_AXIS → ℚ) :
    (ngcSlotToks s k v).count (.str "[G") = 1 := by
  rw [ngcSlotToks_eq]
  split_ifs <;> simp [List.count_cons, List.count_append]

lemma status7_toks :
    report_status_message STATUS_SETTING_READ_FAIL =
      [.str "error: ", .str "EEPROM read fail. Using defaults", .str "\r\n"] := rfl

/-- The slot loop over any prefix of successful slots followed by a failing
slot: the emitted frames are the successful slots' frames and then the
settings-read-failure status frame. -/
lemma ngcLoop_fail_at (s : Settings) (gc : GcState) (sys : SysState)
    (rc : ℕ → Option (Fin N_AXIS → ℚ)) (l1 : List ℕ) (k : ℕ) (l2 : List ℕ)
    (hok : ∀ j ∈ l1, (rc j).isSome) (hfail : rc k = none) :
    ngcLoop s gc sys rc (l1 ++ k :: l2) =
      catMap (fun j => ngcSlotToks s j ((rc j).getD (fun _ => 0))) l1 ++
        report_status_message STATUS_SETTING_READ_FAIL := by
  induction l1 with
  | nil => simp [ngcLoop, hfail, catMap]
  | cons a as ih =>
    obtain ⟨v, hv⟩ := Option.isSome_iff_exists.mp (hok a (List.mem_cons_self a as))
    simp only [List.cons_append, ngcLoop, hv, catMap, List.append_eq]
    rw [ih (fun b hb => hok b (List.mem_cons_of_mem a hb))]
    simp [List.append_assoc]

/-- The slot loop when every listed slot reads successfully. -/
lemma ngcLoop_all_some (s : Settings) (gc : GcState) (sys : SysState)
    (rc : ℕ → Option (Fin N_AXIS → ℚ)) (l : List ℕ) (h : ∀ j ∈ l, (rc j).isSome) :
    ngcLoop s gc sys rc l =
      catMap (fun j => ngcSlotToks s j ((rc j).getD (fun _ => 0))) l ++
        (g92Toks s gc ++ report_probe_parameters s sys) := by
  induction l with
  | nil => simp [ngcLoop, catMap]
  | cons a as ih =>
    obtain ⟨v, hv⟩ := Option.isSome_iff_exists.mp (h a (List.mem_cons_self a as))
    simp only [ngcLoop, hv, catMap, List.append_eq]
    rw [ih (fun b hb => h b (List.mem_cons_of_mem a hb))]
    simp [List.append_assoc]

lemma range8_split {k : ℕ} (hk : k ≤ 7) :
    ∃ l2, List.range 8 = List.range k ++ k :: l2 := by
  interval_cases k
  · exact ⟨[1, 2, 3, 4, 5, 6, 7], by decide⟩
  · exact ⟨[2, 3, 4, 5, 6, 7], by decide⟩
  · exact ⟨[3, 4, 5, 6, 7], by decide⟩
  · exact ⟨[4, 5, 6, 7], by decide⟩
  · exact ⟨[5, 6, 7], by decide⟩
  · exact ⟨[6, 7], by decide⟩
  · exact ⟨[7], by decide⟩
  · exact ⟨[], by decide⟩

/-! ## Claim theorems -/

lemma string_toList_append (a b : String) :
    (a ++ b).toList = a.toList ++ b.toList := String.data_append a b

/-- C1: `report_status_message 0` emits exactly `ok\r\n`; every nonzero known
code emits `error: ` + its fixed phrase; every nonzero unknown code emits
`error: Invalid gcode ID:` + the code in decimal; and every nonzero-code
output ends with `\r\n`. -/
theorem grbl_c1 (code : ℕ) (hc : code < 256) (p : ℕ) :
    (code = 0 → render p (report_status_message code) = "ok\r\n".toList) ∧
    (∀ ph, statusPhrase code = some ph →
      render p (report_status_message code) = ("error: " ++ ph ++ "\r\n").toList) ∧
    (code ≠ 0 → statusPhrase code = none →
      render p (report_status_message code) =
        "error: Invalid gcode ID:".toList ++ natRep code ++ "\r\n".toList ∧
      charsVal (natRep code) = code) ∧
    (code ≠ 0 → ∃ pre, render p (report_status_message code) = pre ++ "\r\n".toList) := by
  refine ⟨?_, ?_, ?_, ?_⟩
  · rintro rfl
    simp [report_status_message, STATUS_OK, render, renderTok]
  · intro ph hph
    have hc0 : ¬ code = STATUS_OK := by
      rintro rfl
      rw [show statusPhrase STATUS_OK = none from rfl] at hph
      exact Option.noConfusion hph
    rw [report_status_message, if_neg hc0, hph]
    simp [render, renderTok, render_append, string_toList_append, List.append_assoc]
  · intro hc0 hnone
    rw [report_status_message, if_neg (by simpa [STATUS_OK] using hc0), hnone]
    refine ⟨?_, charsVal_natRep code⟩
    simp [render, renderTok, print_unsigned_base10, Nat.mod_eq_of_lt hc, List.append_assoc]
  · intro hc0
    rw [report_status_message, if_neg (by simpa [STATUS_OK] using hc0)]
    cases hph : statusPhrase code with
    | some ph =>
      exact ⟨"error: ".toList ++ ph.toList,
        by simp [render, renderTok, List.append_assoc]⟩
    | none =>
      exact ⟨"error: ".toList ++ ("Invalid gcode ID:".toList ++ print_unsigned_base10 code),
        by simp [render, renderTok, List.append_assoc]⟩

/-- Witness for C1 at the unknown nonzero code 200. -/
theorem grbl_c1_witness :
    render 3 (report_status_message 200) = "error: Invalid gcode ID:200\r\n".toList := by
  have h := ((grbl_c1 200 (by norm_num) 3).2.2.1 (by norm_num) rfl).1
  rw [h]
  decide

/-- C5 counterexample: `print_unsigned_base10` takes a `uint8_t`, so the
32-bit maximum 4294967295 is truncated to 255 and is not printed as
`4294967295`. -/
theorem grbl_c5_counterexample :
    ¬ (print_unsigned_base10 0 = "0".toList ∧
       print_unsigned_base10 4294967295 = "4294967295".toList) := by decide

/-- C5 (amended): `print_unsigned_base10` renders 0 as `0` and renders every
8-bit value correctly (nonempty digit-only output with no leading zero whose
decimal value is the argument); a 32-bit argument such as 4294967295 is
reduced mod 256 at the `uint8_t` call boundary and prints as 255. -/
theorem grbl_c5 :
    print_unsigned_base10 0 = "0".toList ∧
    print_unsigned_base10 255 = "255".toList ∧
    print_unsigned_base10 4294967295 = print_unsigned_base10 255 ∧
    (∀ n, n < 256 →
      print_unsigned_base10 n ≠ [] ∧
      (∀ c ∈ print_unsigned_base10 n, 48 ≤ c.toNat ∧ c.toNat ≤ 57) ∧
      charsVal (print_unsigned_base10 n) = n ∧
      ((print_unsigned_base10 n).head? = some '0' → n = 0)) := by
  refine ⟨by decide, by decide, by decide, ?_⟩
  intro n hn
  unfold print_unsigned_base10
  rw [Nat.mod_eq_of_lt hn]
  exact ⟨natRep_ne_nil n, fun c hc => natRep_digits hc, charsVal_natRep n,
    fun h => natRep_head h⟩

/-- Witness for C5 (amended) at 255. -/
theorem grbl_c5_witness : charsVal (print_unsigned_base10 255) = 255 :=
  (grbl_c5.2.2.2 255 (by norm_num)).2.2.1

/-- C8: `report_alarm_message` always emits `ALARM: ` and `\r\n`; each of the
three known codes contributes its fixed phrase; any other code yields exactly
`ALARM: \r\n`. -/
theorem grbl_c8 (alarm_code : ℤ) (p : ℕ) :
    (∃ mid, render p (report_alarm_message alarm_code) =
        "ALARM: ".toList ++ mid ++ "\r\n".toList) ∧
    (alarm_code = ALARM_LIMIT_ERROR →
      render p (report_alarm_message alarm_code) = "ALARM: Hard/soft limit\r\n".toList) ∧
    (alarm_code = ALARM_ABORT_CYCLE →
      render p (report_alarm_message alarm_code) = "ALARM: Abort during cycle\r\n".toList) ∧
    (alarm_code = ALARM_PROBE_FAIL →
      render p (report_alarm_message alarm_code) = "ALARM: Probe fail\r\n".toList) ∧
    (alarm_code ≠ ALARM_LIMIT_ERROR → alarm_code ≠ ALARM_ABORT_CYCLE →
      alarm_code ≠ ALARM_PROBE_FAIL →
      render p (report_alarm_message alarm_code) = "ALARM: \r\n".toList) := by
  refine ⟨?_, ?_, ?_, ?_, ?_⟩
  · rw [report_alarm_message]
    split_ifs with h1 h2 h3
    · exact ⟨"Hard/soft limit".toList, by simp [render, renderTok, List.append_assoc]⟩
    · exact ⟨"Abort during cycle".toList, by simp [render, renderTok, List.append_assoc]⟩
    · exact ⟨"Probe fail".toList, by simp [render, renderTok, List.append_assoc]⟩
    · exact ⟨[], by simp [render, renderTok]⟩
  · intro h
    simp only [report_alarm_message, if_pos h]
    simp [render, renderTok]
  · intro h
    have h1 : alarm_code ≠ ALARM_LIMIT_ERROR := by rw [h]; decide
    simp only [report_alarm_message, if_neg h1, if_pos h]
    simp [render, renderTok]
  · intro h
    have h1 : alarm_code ≠ ALARM_LIMIT_ERROR := by rw [h]; decide
    have h2 : alarm_code ≠ ALARM_ABORT_CYCLE := by rw [h]; decide
    simp only [report_alarm_message, if_neg h1, if_neg h2, if_pos h]
    simp [render, renderTok]
  · intro h1 h2 h3
    simp only [report_alarm_message, if_neg h1, if_neg h2, if_neg h3]
    simp [render, renderTok]

/-- Witness for C8 at the unknown alarm code 5. -/
theorem grbl_c8_witness :
    render 3 (report_alarm_message 5) = "ALARM: \r\n".toList :=
  (grbl_c8 5 3).2.2.2.2 (by decide) (by decide) (by decide)

/-- Emission events that carry a displayed value (not fixed label text). -/
def isValueTok : Tok → Bool
  | .str _ => false
  | _ => true

/-- C7: in the settings dump, the displayed max-travel values are the negated
stored values and the displayed accelerations are the stored values divided
by 3600; every other displayed value is the stored value itself. -/
theorem grbl_c7 (s : Settings) :
    (report_grbl_settings s).filter isValueTok =
      [.num (s.steps_per_mm 0), .num (s.steps_per_mm 1), .num (s.steps_per_mm 2),
       .num (s.max_rate 0), .num (s.max_rate 1), .num (s.max_rate 2),
       .num (s.acceleration 0 / 3600), .num (s.acceleration 1 / 3600),
       .num (s.acceleration 2 / 3600),
       .num (-s.max_travel 0), .num (-s.max_travel 1), .num (-s.max_travel 2),
       .unum s.pulse_microseconds,
       .unum s.step_invert_mask, .base2 s.step_invert_mask 8,
       .unum s.dir_invert_mask, .base2 s.dir_invert_mask 8,
       .unum s.stepper_idle_lock_time,
       .num s.junction_deviation, .num s.arc_tolerance,
       .unum s.decimal_places,
       .unum (flag01 s.flags BITFLAG_REPORT_INCHES),
       .unum (flag01 s.flags BITFLAG_AUTO_START),
       .unum (flag01 s.flags BITFLAG_INVERT_ST_ENABLE),
       .unum (flag01 s.flags BITFLAG_INVERT_LIMIT_PINS),
       .unum (flag01 s.flags BITFLAG_SOFT_LIMIT_ENABLE),
       .unum (flag01 s.flags BITFLAG_HARD_LIMIT_ENABLE),
       .unum (flag01 s.flags BITFLAG_HOMING_ENABLE),
       .unum s.homing_dir_mask, .base2 s.homing_dir_mask 8,
       .num s.homing_feed_rate, .num s.homing_seek_rate,
       .unum s.homing_debounce_delay, .num s.homing_pulloff] := by
  have h60 : (60 * 60 : ℚ) = 3600 := by norm_num
  simp [report_grbl_settings, isValueTok, h60]

/-- The concrete configuration of the spec's end-to-end example. -/
def demoSettings : Settings where
  steps_per_mm := ![250, 250, 200]
  max_rate := ![500, 500, 500]
  acceleration := ![36000, 36000, 36000]
  max_travel := ![-200, -200, -200]
  pulse_microseconds := 10
  step_invert_mask := 0
  dir_invert_mask := 0
  stepper_idle_lock_time := 25
  junction_deviation := 1 / 50
  arc_tolerance := 1 / 500
  decimal_places := 3
  flags := 0
  homing_dir_mask := 0
  homing_feed_rate := 25
  homing_seek_rate := 500
  homing_debounce_delay := 250
  homing_pulloff := 1

/-- Parser state with all coordinate offsets zero. -/
def demoGc : GcState := ⟨![0, 0, 0], ![0, 0, 0]⟩

/-- System state in `Run` at step position `[2500, 2500, 2000]`. -/
def demoSys : SysState := ⟨STATE_CYCLE, ![2500, 2500, 2000], ![0, 0, 0]⟩

/-- C2: the end-to-end real-time status example — steps-per-mm
`[250,250,200]`, inches off, 3 decimal places, position `[2500,2500,2000]`
steps, state Run, zero offsets. -/
theorem grbl_c2 :
    render 3 (report_realtime_status demoSettings demoGc demoSys) =
      "<Run,MPos:10.000,10.000,10.000,WPos:10.000,10.000,10.000>\r\n".toList := by
  have hflag : bit_istrue demoSettings.flags BITFLAG_REPORT_INCHES = false := by decide
  have hm : ∀ i : Fin N_AXIS, mposVal demoSettings demoSys i = (10 : ℚ) := by
    intro i
    fin_cases i <;>
      · simp [mposVal, demoSettings, demoSys, bit_istrue, BITFLAG_REPORT_INCHES]
        norm_num
  have hw : ∀ i : Fin N_AXIS, wposVal demoSettings demoGc demoSys i = (10 : ℚ) := by
    intro i
    rw [wposVal, hflag]
    simp only [Bool.false_eq_true, if_false]
    rw [hm i]
    have hz : demoGc.coord_system i + demoGc.coord_offset i = 0 := by
      fin_cases i <;> simp [demoGc]
    rw [hz]
    norm_num
  have hpf : printFloatChars 3 (10 : ℚ) = "10.000".toList := by
    have h10 : (10 : ℚ) = ((10 : ℕ) : ℚ) := by norm_num
    rw [h10, printFloatChars_natCast 3 10 (by norm_num)]
    decide
  rw [realtime_render, hm 0, hm 1, hm 2, hw 0, hw 1, hw 2, hpf]
  have hst : render 3 (stateToks demoSys.state) = "<Run".toList := by
    rw [show stateToks demoSys.state = [.str "<Run"] from rfl]
    simp [render, renderTok]
  rw [hst]
  decide

/-- C3: in every real-time status line the MPos list carries a comma after
every axis value (including the last), while the WPos list has commas only
between values — the last WPos value is followed directly by `>\r\n`. -/
theorem grbl_c3 (s : Settings) (gc : GcState) (sys : SysState) :
    render s.decimal_places (report_realtime_status s gc sys) =
      render s.decimal_places (stateToks sys.state) ++ ",MPos:".toList ++
        printFloatChars s.decimal_places (mposVal s sys 0) ++ ",".toList ++
        printFloatChars s.decimal_places (mposVal s sys 1) ++ ",".toList ++
        printFloatChars s.decimal_places (mposVal s sys 2) ++ ",".toList ++
        "WPos:".toList ++
        printFloatChars s.decimal_places (wposVal s gc sys 0) ++ ",".toList ++
        printFloatChars s.decimal_places (wposVal s gc sys 1) ++ ",".toList ++
        printFloatChars s.decimal_places (wposVal s gc sys 2) ++ ">\r\n".toList :=
  realtime_render s gc sys s.decimal_places

/-- C4: each printed WPos value is the MPos value minus the sum of the
coordinate-system and transient offsets, with the same inch factor applied to
the offsets as to the machine position. -/
theorem grbl_c4 (s : Settings) (gc : GcState) (sys : SysState) (i : Fin N_AXIS) :
    wposVal s gc sys i =
      mposVal s sys i -
        (if bit_istrue s.flags BITFLAG_REPORT_INCHES then INCH_PER_MM else 1) *
          (gc.coord_system i + gc.coord_offset i) := by
  rw [wposVal]
  by_cases h : bit_istrue s.flags BITFLAG_REPORT_INCHES
  · rw [if_pos h, if_pos h]
    ring
  · rw [if_neg h, if_neg h]
    ring

/-- The seven machine states with a `case` arm in `report_realtime_status`. -/
def knownStates : List ℕ :=
  [STATE_IDLE, STATE_QUEUED, STATE_CYCLE, STATE_HOLD, STATE_HOMING, STATE_ALARM,
   STATE_CHECK_MODE]

/-- C10: the `<` delimiter is emitted only by a matched machine-state arm —
for the seven enumerated states the line begins with `<` followed by that
state's token and no later `<` occurs; for any other state value the state
`switch` emits nothing, no `<` appears anywhere, and the line begins with
`,MPos:`. -/
theorem grbl_c10 (s : Settings) (gc : GcState) (sys : SysState) :
    (sys.state ∈ knownStates →
      (render s.decimal_places (stateToks sys.state)).head? = some '<' ∧
      ∃ tl, render s.decimal_places (report_realtime_status s gc sys) =
          render s.decimal_places (stateToks sys.state) ++ tl ∧ '<' ∉ tl) ∧
    (sys.state ∉ knownStates →
      stateToks sys.state = [] ∧
      '<' ∉ render s.decimal_places (report_realtime_status s gc sys) ∧
      ∃ tl, render s.decimal_places (report_realtime_status s gc sys) =
          ",MPos:".toList ++ tl) := by
  constructor
  · intro hmem
    refine ⟨?_, render s.decimal_places (realtimeBodyToks s gc sys),
      by rw [report_realtime_status, render_append], lt_not_mem_body s gc sys _⟩
    simp only [knownStates, List.mem_cons, List.not_mem_nil, or_false] at hmem
    rcases hmem with h | h | h | h | h | h | h <;>
      · rw [h]
        simp [stateToks, render, renderTok, STATE_IDLE, STATE_QUEUED, STATE_CYCLE,
          STATE_HOLD, STATE_HOMING, STATE_ALARM, STATE_CHECK_MODE]
  · intro hnm
    have hempty : stateToks sys.state = [] := by
      simp only [knownStates, List.mem_cons, List.not_mem_nil, or_false, not_or] at hnm
      obtain ⟨h1, h2, h3, h4, h5, h6, h7⟩ := hnm
      simp [stateToks, h1, h2, h3, h4, h5, h6, h7]
    refine ⟨hempty, ?_, ?_⟩
    · rw [report_realtime_status, hempty, List.nil_append]
      exact lt_not_mem_body s gc sys _
    · rw [report_realtime_status, hempty, List.nil_append, realtimeBodyToks_eq]
      exact ⟨_, rfl⟩

/-- A system state whose machine-state value is outside the enumeration. -/
def unknownSys : SysState := ⟨3, ![0, 0, 0], ![0, 0, 0]⟩

/-- Witness for C10 at the unmatched state value 3. -/
theorem grbl_c10_witness :
    '<' ∉ render 3 (report_realtime_status demoSettings demoGc unknownSys) :=
  ((grbl_c10 demoSettings demoGc unknownSys).2 (by decide)).2.1

/-- Closed form of `report_ngc_parameters` when slot `k` is the first failing
slot: the frames of the successful slots below `k`, then the
settings-read-failure status frame, and nothing else. -/
lemma ngc_fail_closed_form (s : Settings) (gc : GcState) (sys : SysState)
    (rc : ℕ → Option (Fin N_AXIS → ℚ)) (k : ℕ)
    (hk : k ≤ SETTING_INDEX_NCOORD) (hfail : rc k = none)
    (hok : ∀ j, j < k → (rc j).isSome) :
    report_ngc_parameters s gc sys rc =
      catMap (fun j => ngcSlotToks s j ((rc j).getD (fun _ => 0))) (List.range k) ++
        report_status_message STATUS_SETTING_READ_FAIL := by
  obtain ⟨l2, hsplit⟩ := range8_split hk
  rw [report_ngc_parameters,
    show List.range (SETTING_INDEX_NCOORD + 1) = List.range 8 from rfl, hsplit]
  exact ngcLoop_fail_at s gc sys rc (List.range k) k l2
    (fun j hj => hok j (List.mem_range.mp hj)) hfail

/-- C6: if reading slot `k` fails (all earlier slots succeeding), the dump is
exactly the earlier slots' frames followed by one settings-read-failure
frame — one `error: ` frame in total, and exactly `k` frame openers `[G`,
so no partial line is emitted for the failing slot and no later slot is
attempted. -/
theorem grbl_c6 (s : Settings) (gc : GcState) (sys : SysState)
    (rc : ℕ → Option (Fin N_AXIS → ℚ)) (k : ℕ)
    (hk : k ≤ SETTING_INDEX_NCOORD) (hfail : rc k = none)
    (hok : ∀ j, j < k → (rc j).isSome) :
    report_ngc_parameters s gc sys rc =
      catMap (fun j => ngcSlotToks s j ((rc j).getD (fun _ => 0))) (List.range k) ++
        report_status_message STATUS_SETTING_READ_FAIL ∧
    (report_ngc_parameters s gc sys rc).count
        (.str "EEPROM read fail. Using defaults") = 1 ∧
    (report_ngc_parameters s gc sys rc).count (.str "[G") = k := by
  have heq := ngc_fail_closed_form s gc sys rc k hk hfail hok
  refine ⟨heq, ?_, ?_⟩
  · rw [heq, List.count_append,
      count_catMap_zero (fun j hj => ngcSlotToks_count_err s j _), status7_toks]
    decide
  · rw [heq, List.count_append,
      count_catMap_one (fun j hj => ngcSlotToks_count_open s j _), status7_toks,
      List.length_range]
    have hz : ([Tok.str "error: ", Tok.str "EEPROM read fail. Using defaults",
        Tok.str "\r\n"] : List Tok).count (.str "[G") = 0 := by decide
    rw [hz]
    omega

/-- Read oracle failing at slot 2 after two successful slots. -/
def demoReadCoord : ℕ → Option (Fin N_AXIS → ℚ) :=
  fun j => if j < 2 then some (fun _ => 0) else none

/-- Witness for C6 with the read failing at slot 2. -/
theorem grbl_c6_witness :
    (report_ngc_parameters demoSettings demoGc demoSys demoReadCoord).count
        (.str "EEPROM read fail. Using defaults") = 1 :=
  (grbl_c6 demoSettings demoGc demoSys demoReadCoord 2 (by decide) rfl
    (by decide)).2.1

/-- C9: on a failing slot read the `[G92:...]` and `[Probe:...]` frames are
not emitted at all; they are emitted when every slot reads successfully. -/
theorem grbl_c9 (s : Settings) (gc : GcState) (sys : SysState)
    (rc : ℕ → Option (Fin N_AXIS → ℚ)) :
    (∀ k, k ≤ SETTING_INDEX_NCOORD → rc k = none → (∀ j, j < k → (rc j).isSome) →
      (Tok.str "[G92:") ∉ report_ngc_parameters s gc sys rc ∧
      (Tok.str "[Probe:") ∉ report_ngc_parameters s gc sys rc) ∧
    ((∀ j, j ≤ SETTING_INDEX_NCOORD → (rc j).isSome) →
      (Tok.str "[G92:") ∈ report_ngc_parameters s gc sys rc ∧
      (Tok.str "[Probe:") ∈ report_ngc_parameters s gc sys rc) := by
  constructor
  · intro k hk hfail hok
    have heq := ngc_fail_closed_form s gc sys rc k hk hfail hok
    constructor <;>
      · rw [heq]
        intro hmem
        rcases List.mem_append.mp hmem with h | h
        · rcases mem_catMap.mp h with ⟨j, hj, hjm⟩
          rcases ngcSlotToks_mem_str hjm with h | h | h | h | h | h <;> simp at h
        · rw [status7_toks] at h
          simp at h
  · intro hall
    rw [report_ngc_parameters,
      show List.range (SETTING_INDEX_NCOORD + 1) = List.range 8 from rfl,
      ngcLoop_all_some s gc sys rc (List.range 8)
        (fun j hj => hall j (Nat.lt_succ_iff.mp (List.mem_range.mp hj)))]
    constructor
    · refine List.mem_append.mpr (Or.inr (List.mem_append.mpr (Or.inl ?_)))
      rw [g92Toks_eq]
      simp
    · refine List.mem_append.mpr (Or.inr (List.mem_append.mpr (Or.inr ?_)))
      rw [probeToks_eq]
      simp

/-- Witness for C9 with the read failing at slot 2. -/
theorem grbl_c9_witness :
    (Tok.str "[G92:") ∉ report_ngc_parameters demoSettings demoGc demoSys demoReadCoord :=
  ((grbl_c9 demoSettings demoGc demoSys demoReadCoord).1 2 (by decide) rfl
    (by decide)).1
